import Mathlib

/-!
Shallow embedding of the AMM pricing module (`src/amm.rs`).

`Balance` is Rust's `u128`, modelled as `Nat` together with the explicit
bound `BALANCE_MAX = 2^128 - 1`; the wide intermediate type `U256` is
modelled the same way with bound `U256_MAX = 2^256 - 1`.  Every checked
operation of the source (`checked_mul`, `checked_add`, `checked_sub`,
`checked_div` on `U256`, `checked_add` on `Balance` inside `round_up!`,
and the narrowing `Balance::try_from`) is modelled as an explicit
`Option`/`Except` returning function with the overflow test spelled out.
-/

namespace Amm

abbrev Balance := Nat

/-- Rust `u128::MAX`. -/
def BALANCE_MAX : Nat := 2 ^ 128 - 1

/-- Rust `U256::MAX`. -/
def U256_MAX : Nat := 2 ^ 256 - 1

/-- The error enum `MathError` of `amm.rs`. -/
inductive MathError where
  | ZeroInReserve
  | Overflow
  | InsufficientOutReserve
deriving DecidableEq, Repr

open MathError

/-- Source constant `FIXED_ROUND_UP: Balance = 1`. -/
def FIXED_ROUND_UP : Balance := 1

/-- Wide multiply `U256::checked_mul`. -/
def checked_mul (a b : Nat) : Option Nat :=
  if a * b ≤ U256_MAX then some (a * b) else none

/-- Wide add `U256::checked_add`. -/
def checked_add (a b : Nat) : Option Nat :=
  if a + b ≤ U256_MAX then some (a + b) else none

/-- Wide subtract `U256::checked_sub`. -/
def checked_sub (a b : Nat) : Option Nat :=
  if b ≤ a then some (a - b) else none

/-- Wide divide `U256::checked_div`: it is `none` exactly on a zero divisor. -/
def checked_div (a b : Nat) : Option Nat :=
  if b = 0 then none else some (a / b)

/-- Narrow add `u128::checked_add`, used by the source to round up. -/
def balance_checked_add (a b : Balance) : Option Balance :=
  if a + b ≤ BALANCE_MAX then some (a + b) else none

/-- Narrowing `to_balance!`, i.e. `Balance::try_from(x).map_err(|_| Overflow)`. -/
def to_balance (x : Nat) : Except MathError Balance :=
  if x ≤ BALANCE_MAX then .ok x else .error Overflow

/-- Rounding step `round_up!`, i.e. `x.checked_add(FIXED_ROUND_UP).ok_or(Overflow)`. -/
def round_up (x : Balance) : Except MathError Balance :=
  match balance_checked_add x FIXED_ROUND_UP with
  | some v => .ok v
  | none => .error Overflow

/-- The narrow-then-round-up tail shared by the two swap functions:
`round_up!(to_balance!(x).ok().ok_or(Overflow)?)`. -/
def narrow_round_up (x : Nat) : Except MathError Balance :=
  match to_balance x with
  | .error _ => .error Overflow
  | .ok result => round_up result

/-- Source function `calculate_spot_price(in_reserve, out_reserve, amount)`:
`OUT_RESERVE * AMOUNT / IN_RESERVE` on wide values, narrowed. -/
def calculate_spot_price (in_reserve out_reserve amount : Balance) :
    Except MathError Balance :=
  if in_reserve = 0 then .error ZeroInReserve
  else if amount = 0 ∨ out_reserve = 0 then to_balance 0
  else
    match checked_mul out_reserve amount with
    | none => .error Overflow
    | some p =>
      match checked_div p in_reserve with
      | none => .error Overflow
      | some spot_price_hp => to_balance spot_price_hp

/-- Source function `calculate_out_given_in(in_reserve, out_reserve, amount_in)`:
`OUT_RESERVE * AMOUNT_IN / (IN_RESERVE + AMOUNT_IN)`, rounded up by one. -/
def calculate_out_given_in (in_reserve out_reserve amount_in : Balance) :
    Except MathError Balance :=
  match checked_add in_reserve amount_in with
  | none => .error Overflow
  | some denominator =>
    if denominator = 0 then .error ZeroInReserve
    else
      match checked_mul out_reserve amount_in with
      | none => .error Overflow
      | some numerator =>
        match checked_div numerator denominator with
        | none => .error Overflow
        | some sale_price_hp => narrow_round_up sale_price_hp

/-- Source function `calculate_in_given_out(out_reserve, in_reserve, amount_out)`:
`IN_RESERVE * AMOUNT_OUT / (OUT_RESERVE - AMOUNT_OUT)`, rounded up by one. -/
def calculate_in_given_out (out_reserve in_reserve amount_out : Balance) :
    Except MathError Balance :=
  if ¬ amount_out ≤ out_reserve then .error InsufficientOutReserve
  else
    match checked_mul in_reserve amount_out with
    | none => .error Overflow
    | some numerator =>
      match checked_sub out_reserve amount_out with
      | none => .error Overflow
      | some denominator =>
        if denominator = 0 then .error ZeroInReserve
        else
          match checked_div numerator denominator with
          | none => .error Overflow
          | some buy_price_hp => narrow_round_up buy_price_hp

/-- Source function `calculate_liquidity_in(asset_a_reserve, asset_b_reserve, amount)`:
`AMOUNT * ASSET_B_RESERVE / ASSET_A_RESERVE`. -/
def calculate_liquidity_in (asset_a_reserve asset_b_reserve amount : Balance) :
    Except MathError Balance :=
  if asset_a_reserve = 0 then .error ZeroInReserve
  else
    match checked_mul amount asset_b_reserve with
    | none => .error Overflow
    | some p =>
      match checked_div p asset_a_reserve with
      | none => .error Overflow
      | some b_required_hp => to_balance b_required_hp

/-- Source function `calculate_liquidity_out(asset_a_reserve, asset_b_reserve, amount, total_liquidity)`:
`(AMOUNT * ASSET_A_RESERVE / TOTAL_LIQUIDITY, AMOUNT * ASSET_B_RESERVE / TOTAL_LIQUIDITY)`. -/
def calculate_liquidity_out
    (asset_a_reserve asset_b_reserve amount total_liquidity : Balance) :
    Except MathError (Balance × Balance) :=
  if total_liquidity = 0 then .error ZeroInReserve
  else
    match checked_mul amount asset_a_reserve with
    | none => .error Overflow
    | some pa =>
      match checked_div pa total_liquidity with
      | none => .error Overflow
      | some remove_amount_a_hp =>
        match to_balance remove_amount_a_hp with
        | .error e => .error e
        | .ok remove_amount_a =>
          match checked_mul asset_b_reserve amount with
          | none => .error Overflow
          | some pb =>
            match checked_div pb total_liquidity with
            | none => .error Overflow
            | some remove_amount_b_hp =>
              match to_balance remove_amount_b_hp with
              | .error e => .error e
              | .ok remove_amount_b => .ok (remove_amount_a, remove_amount_b)

/-! Basic facts about the checked operations on inputs widened from `u128`. -/

theorem balance_max_lt : BALANCE_MAX + BALANCE_MAX ≤ U256_MAX := by
  norm_num [BALANCE_MAX, U256_MAX]

theorem balance_max_sq : BALANCE_MAX * BALANCE_MAX ≤ U256_MAX := by
  norm_num [BALANCE_MAX, U256_MAX]

theorem checked_mul_eq {a b : Nat} (ha : a ≤ BALANCE_MAX) (hb : b ≤ BALANCE_MAX) :
    checked_mul a b = some (a * b) := by
  unfold checked_mul
  rw [if_pos (le_trans (Nat.mul_le_mul ha hb) balance_max_sq)]

theorem checked_add_eq {a b : Nat} (ha : a ≤ BALANCE_MAX) (hb : b ≤ BALANCE_MAX) :
    checked_add a b = some (a + b) := by
  unfold checked_add
  rw [if_pos (le_trans (Nat.add_le_add ha hb) balance_max_lt)]

theorem checked_sub_eq {a b : Nat} (h : b ≤ a) :
    checked_sub a b = some (a - b) := by
  unfold checked_sub
  rw [if_pos h]

theorem checked_div_eq {b : Nat} (a : Nat) (h : b ≠ 0) :
    checked_div a b = some (a / b) := by
  unfold checked_div
  rw [if_neg h]

/-! Closed-form characterisations of the five operations on `u128` inputs. -/

theorem narrow_round_up_eq (x : Nat) :
    narrow_round_up x =
      if x + 1 ≤ BALANCE_MAX then .ok (x + 1) else .error Overflow := by
  unfold narrow_round_up to_balance round_up balance_checked_add FIXED_ROUND_UP
  rcases le_or_lt (x + 1) BALANCE_MAX with h | h
  · simp [h, Nat.le_of_succ_le h]
  · rcases le_or_lt x BALANCE_MAX with h2 | h2
    · simp [h2, Nat.not_le.mpr h]
    · simp [Nat.not_le.mpr h, Nat.not_le.mpr h2]

theorem calculate_spot_price_eq {i o a : Nat}
    (ho : o ≤ BALANCE_MAX) (ha : a ≤ BALANCE_MAX)
    (hi : i ≠ 0) (ha0 : a ≠ 0) (ho0 : o ≠ 0) :
    calculate_spot_price i o a =
      if o * a / i ≤ BALANCE_MAX then .ok (o * a / i) else .error Overflow := by
  unfold calculate_spot_price
  rw [if_neg hi, if_neg (by simp [ha0, ho0])]
  simp only [checked_mul_eq ho ha, checked_div_eq (o * a) hi]
  rfl

theorem calculate_out_given_in_eq {i o a : Nat}
    (hi : i ≤ BALANCE_MAX) (ho : o ≤ BALANCE_MAX) (ha : a ≤ BALANCE_MAX)
    (hden : i + a ≠ 0) :
    calculate_out_given_in i o a =
      if o * a / (i + a) + 1 ≤ BALANCE_MAX
      then .ok (o * a / (i + a) + 1) else .error Overflow := by
  unfold calculate_out_given_in
  simp only [checked_add_eq hi ha]
  rw [if_neg hden]
  simp only [checked_mul_eq ho ha, checked_div_eq (o * a) hden]
  exact narrow_round_up_eq (o * a / (i + a))

theorem calculate_in_given_out_eq {o i a : Nat}
    (hi : i ≤ BALANCE_MAX) (ha : a ≤ BALANCE_MAX) (hlt : a < o) :
    calculate_in_given_out o i a =
      if i * a / (o - a) + 1 ≤ BALANCE_MAX
      then .ok (i * a / (o - a) + 1) else .error Overflow := by
  unfold calculate_in_given_out
  rw [if_neg (by simp [Nat.le_of_lt hlt])]
  simp only [checked_mul_eq hi ha, checked_sub_eq (Nat.le_of_lt hlt)]
  rw [if_neg (Nat.sub_ne_zero_of_lt hlt)]
  simp only [checked_div_eq (i * a) (Nat.sub_ne_zero_of_lt hlt)]
  exact narrow_round_up_eq (i * a / (o - a))

theorem calculate_liquidity_in_eq {a b amt : Nat}
    (hb : b ≤ BALANCE_MAX) (hamt : amt ≤ BALANCE_MAX) (ha0 : a ≠ 0) :
    calculate_liquidity_in a b amt =
      if amt * b / a ≤ BALANCE_MAX then .ok (amt * b / a) else .error Overflow := by
  unfold calculate_liquidity_in
  rw [if_neg ha0]
  simp only [checked_mul_eq hamt hb, checked_div_eq (amt * b) ha0]
  rfl

theorem calculate_liquidity_out_eq {a b amt tl : Nat}
    (ha : a ≤ BALANCE_MAX) (hb : b ≤ BALANCE_MAX) (hamt : amt ≤ BALANCE_MAX)
    (htl : tl ≠ 0) :
    calculate_liquidity_out a b amt tl =
      if amt * a / tl ≤ BALANCE_MAX then
        (if b * amt / tl ≤ BALANCE_MAX
          then .ok (amt * a / tl, b * amt / tl) else .error Overflow)
      else .error Overflow := by
  unfold calculate_liquidity_out
  rw [if_neg htl]
  simp only [checked_mul_eq hamt ha, checked_div_eq (amt * a) htl,
    checked_mul_eq hb hamt, checked_div_eq (b * amt) htl]
  unfold to_balance
  rcases le_or_lt (amt * a / tl) BALANCE_MAX with h1 | h1
  · rcases le_or_lt (b * amt / tl) BALANCE_MAX with h2 | h2
    · simp [h1, h2]
    · simp [h1, Nat.not_le.mpr h2]
  · simp [Nat.not_le.mpr h1]

/-! Guard and error branches. -/

theorem calculate_spot_price_zero_in (o a : Nat) :
    calculate_spot_price 0 o a = .error ZeroInReserve := by
  unfold calculate_spot_price
  rw [if_pos rfl]

theorem calculate_spot_price_short_circuit {i : Nat} (o a : Nat)
    (hi : i ≠ 0) (h : a = 0 ∨ o = 0) :
    calculate_spot_price i o a = .ok 0 := by
  unfold calculate_spot_price
  rw [if_neg hi, if_pos h]
  unfold to_balance
  rw [if_pos (Nat.zero_le _)]

theorem calculate_out_given_in_zero_den {i a : Nat} (o : Nat)
    (hi : i ≤ BALANCE_MAX) (ha : a ≤ BALANCE_MAX) (hden : i + a = 0) :
    calculate_out_given_in i o a = .error ZeroInReserve := by
  unfold calculate_out_given_in
  simp only [checked_add_eq hi ha]
  rw [if_pos hden]

theorem calculate_in_given_out_insufficient {o a : Nat} (i : Nat)
    (h : o < a) :
    calculate_in_given_out o i a = .error InsufficientOutReserve := by
  unfold calculate_in_given_out
  have hc : ¬ a ≤ o := by omega
  rw [if_pos hc]

theorem calculate_in_given_out_drain {o i a : Nat}
    (hi : i ≤ BALANCE_MAX) (ha : a ≤ BALANCE_MAX) (heq : a = o) :
    calculate_in_given_out o i a = .error ZeroInReserve := by
  unfold calculate_in_given_out
  have hc : ¬ ¬ a ≤ o := by omega
  rw [if_neg hc]
  simp only [checked_mul_eq hi ha, checked_sub_eq (le_of_eq heq)]
  have hz : o - a = 0 := by omega
  rw [if_pos hz]

theorem calculate_liquidity_in_zero (b amt : Nat) :
    calculate_liquidity_in 0 b amt = .error ZeroInReserve := by
  unfold calculate_liquidity_in
  rw [if_pos rfl]

theorem calculate_liquidity_out_zero (a b amt : Nat) :
    calculate_liquidity_out a b amt 0 = .error ZeroInReserve := by
  unfold calculate_liquidity_out
  rw [if_pos rfl]

/-! Ok-results of the rounding tail. -/

theorem narrow_round_up_ok {x v : Nat} (h : narrow_round_up x = .ok v) :
    v = x + 1 := by
  rw [narrow_round_up_eq] at h
  split at h
  · cases h
    rfl
  · cases h

theorem calculate_out_given_in_ok_pos {i o a v : Nat}
    (h : calculate_out_given_in i o a = .ok v) : 1 ≤ v := by
  unfold calculate_out_given_in at h
  split at h
  · cases h
  · split at h
    · cases h
    · split at h
      · cases h
      · split at h
        · cases h
        · have := narrow_round_up_ok h
          omega

theorem calculate_in_given_out_ok_pos {o i a v : Nat}
    (h : calculate_in_given_out o i a = .ok v) : 1 ≤ v := by
  unfold calculate_in_given_out at h
  split at h
  · cases h
  · split at h
    · cases h
    · split at h
      · cases h
      · split at h
        · cases h
        · split at h
          · cases h
          · have := narrow_round_up_ok h
            omega

/-! Arithmetic fact behind the linearity of `calculate_liquidity_out`. -/

theorem double_div (n d : Nat) (hd : d ≠ 0) :
    2 * n / d = 2 * (n / d) ∨ 2 * n / d = 2 * (n / d) + 1 := by
  have hmod := Nat.div_add_mod n d
  have hmul : d * (2 * (n / d)) = 2 * (d * (n / d)) := by ring
  have hrew : 2 * n = 2 * (n % d) + d * (2 * (n / d)) := by omega
  have hdiv : (2 * (n % d) + d * (2 * (n / d))) / d =
      2 * (n % d) / d + 2 * (n / d) :=
    Nat.add_mul_div_left _ _ (Nat.pos_of_ne_zero hd)
  have hlt : 2 * (n % d) < d * 2 := by
    have := Nat.mod_lt n (Nat.pos_of_ne_zero hd)
    omega
  have hsmall : 2 * (n % d) / d < 2 := Nat.div_lt_of_lt_mul hlt
  rw [hrew, hdiv]
  revert hsmall
  generalize 2 * (n % d) / d = q
  omega

/-! Claim theorems. -/

/-- Claim C1: for all `u128` values with `in_reserve + amount_in > 0`,
`calculate_out_given_in` returns `Ok(floor(out_reserve * amount_in /
(in_reserve + amount_in)) + 1)` whenever the floor is below `u128::MAX`,
returns `Err(Overflow)` when the floor equals or exceeds `u128::MAX`
(the add-one itself is overflow-checked), and an `Ok` result is never
less than `floor + 1`. -/
theorem C1_out_given_in_rounds_up (i o a : Nat)
    (hi : i ≤ BALANCE_MAX) (ho : o ≤ BALANCE_MAX) (ha : a ≤ BALANCE_MAX)
    (hden : 0 < i + a) :
    (o * a / (i + a) < BALANCE_MAX →
      calculate_out_given_in i o a = .ok (o * a / (i + a) + 1)) ∧
    (BALANCE_MAX ≤ o * a / (i + a) →
      calculate_out_given_in i o a = .error MathError.Overflow) ∧
    (∀ v, calculate_out_given_in i o a = .ok v → o * a / (i + a) + 1 ≤ v) := by
  have hch := calculate_out_given_in_eq hi ho ha (by omega)
  refine ⟨?_, ?_, ?_⟩
  · intro h
    have hc : o * a / (i + a) + 1 ≤ BALANCE_MAX := by omega
    rw [hch, if_pos hc]
  · intro h
    have hc : ¬ o * a / (i + a) + 1 ≤ BALANCE_MAX := by omega
    rw [hch, if_neg hc]
  · intro v hv
    rw [hch] at hv
    split at hv
    · cases hv
      omega
    · cases hv

/-- Witness for C1 at the concrete pool `(1000, 2000, 500)`. -/
theorem C1_out_given_in_rounds_up_witness :
    calculate_out_given_in 1000 2000 500 = .ok (2000 * 500 / (1000 + 500) + 1) :=
  (C1_out_given_in_rounds_up 1000 2000 500 (by decide) (by decide) (by decide)
    (by decide)).1 (by decide)

/-- Claim C2: for all `u128` values with `amount_out < out_reserve`,
`calculate_in_given_out` returns `Ok(floor(in_reserve * amount_out /
(out_reserve - amount_out)) + 1)` whenever the floor is strictly below
`u128::MAX`, and `Err(Overflow)` otherwise. -/
theorem C2_in_given_out_rounds_up (o i a : Nat)
    (ho : o ≤ BALANCE_MAX) (hi : i ≤ BALANCE_MAX) (ha : a ≤ BALANCE_MAX)
    (hlt : a < o) :
    (i * a / (o - a) < BALANCE_MAX →
      calculate_in_given_out o i a = .ok (i * a / (o - a) + 1)) ∧
    (BALANCE_MAX ≤ i * a / (o - a) →
      calculate_in_given_out o i a = .error MathError.Overflow) := by
  have hch := calculate_in_given_out_eq hi ha hlt
  constructor
  · intro h
    have hc : i * a / (o - a) + 1 ≤ BALANCE_MAX := by omega
    rw [hch, if_pos hc]
  · intro h
    have hc : ¬ i * a / (o - a) + 1 ≤ BALANCE_MAX := by omega
    rw [hch, if_neg hc]

/-- Witness for C2 at the concrete pool `(2000, 1000, 500)`. -/
theorem C2_in_given_out_rounds_up_witness :
    calculate_in_given_out 2000 1000 500 = .ok (1000 * 500 / (2000 - 500) + 1) :=
  (C2_in_given_out_rounds_up 2000 1000 500 (by decide) (by decide) (by decide)
    (by decide)).1 (by decide)

/-- Claim C3: for all `u128` inputs, `calculate_in_given_out` fails with
`InsufficientOutReserve` exactly when `amount_out > out_reserve`, and with
`ZeroInReserve` exactly when `amount_out = out_reserve` (including when
both are zero), independently of `in_reserve`. -/
theorem C3_in_given_out_guards (o i a : Nat)
    (ho : o ≤ BALANCE_MAX) (hi : i ≤ BALANCE_MAX) (ha : a ≤ BALANCE_MAX) :
    (calculate_in_given_out o i a = .error MathError.InsufficientOutReserve ↔
      o < a) ∧
    (calculate_in_given_out o i a = .error MathError.ZeroInReserve ↔ a = o) := by
  rcases Nat.lt_trichotomy a o with hlt | heq | hgt
  · rw [calculate_in_given_out_eq hi ha hlt]
    constructor
    · constructor
      · intro h
        split at h <;> simp_all
      · intro h
        omega
    · constructor
      · intro h
        split at h <;> simp_all
      · intro h
        omega
  · rw [calculate_in_given_out_drain hi ha heq]
    constructor
    · constructor
      · intro h
        simp_all
      · intro h
        omega
    · simp [heq]
  · rw [calculate_in_given_out_insufficient i hgt]
    constructor
    · simp [hgt]
    · constructor
      · intro h
        simp_all
      · intro h
        omega

/-- Witness for C3 at `(out_reserve, in_reserve, amount_out) = (5, 7, 5)`:
draining the pool exactly yields `ZeroInReserve`, and asking for one more
than the reserve yields `InsufficientOutReserve`. -/
theorem C3_in_given_out_guards_witness :
    calculate_in_given_out 5 7 5 = .error MathError.ZeroInReserve ∧
    calculate_in_given_out 5 7 6 = .error MathError.InsufficientOutReserve :=
  ⟨(C3_in_given_out_guards 5 7 5 (by decide) (by decide) (by decide)).2.mpr rfl,
   (C3_in_given_out_guards 5 7 6 (by decide) (by decide) (by decide)).1.mpr
     (by decide)⟩

/-- Claim C4: `calculate_spot_price(0, *, *)` always fails with
`ZeroInReserve`; for a positive `in_reserve` it returns `Ok(0)` whenever
`amount = 0` or `out_reserve = 0`, and otherwise returns
`Ok(floor(out_reserve * amount / in_reserve))` when the quotient fits in
`u128` and `Err(Overflow)` when it exceeds `u128::MAX`. -/
theorem C4_spot_price_cases (i o a : Nat)
    (hi : i ≤ BALANCE_MAX) (ho : o ≤ BALANCE_MAX) (ha : a ≤ BALANCE_MAX) :
    calculate_spot_price 0 o a = .error MathError.ZeroInReserve ∧
    (i ≠ 0 → (a = 0 ∨ o = 0) → calculate_spot_price i o a = .ok 0) ∧
    (i ≠ 0 → a ≠ 0 → o ≠ 0 →
      (o * a / i ≤ BALANCE_MAX → calculate_spot_price i o a = .ok (o * a / i)) ∧
      (BALANCE_MAX < o * a / i →
        calculate_spot_price i o a = .error MathError.Overflow)) := by
  refine ⟨calculate_spot_price_zero_in o a,
    fun hi0 h => calculate_spot_price_short_circuit o a hi0 h, ?_⟩
  intro hi0 ha0 ho0
  have hch := calculate_spot_price_eq ho ha hi0 ha0 ho0
  constructor
  · intro h
    rw [hch, if_pos h]
  · intro h
    have hc : ¬ o * a / i ≤ BALANCE_MAX := by omega
    rw [hch, if_neg hc]

/-- Witness for C4: the zero-reserve failure, a zero-amount short-circuit
and the generic quotient, at the concrete pool `(1000, 2000, 500)`. -/
theorem C4_spot_price_cases_witness :
    calculate_spot_price 0 2000 500 = .error MathError.ZeroInReserve ∧
    calculate_spot_price 1000 2000 0 = .ok 0 ∧
    calculate_spot_price 1000 2000 500 = .ok (2000 * 500 / 1000) :=
  ⟨(C4_spot_price_cases 1 2000 500 (by decide) (by decide) (by decide)).1,
   (C4_spot_price_cases 1000 2000 0 (by decide) (by decide) (by decide)).2.1
     (by decide) (Or.inl rfl),
   ((C4_spot_price_cases 1000 2000 500 (by decide) (by decide)
       (by decide)).2.2 (by decide) (by decide) (by decide)).1 (by decide)⟩

/-- Claim C5: `calculate_liquidity_out` fails with `ZeroInReserve` exactly
when `total_liquidity = 0`; for positive `total_liquidity` it returns the
pair of truncated proportional shares when both fit in `u128`, and fails
with `Overflow` for the whole call — never a partial result — when either
quotient exceeds `u128::MAX`. -/
theorem C5_liquidity_out_cases (a b amt tl : Nat)
    (ha : a ≤ BALANCE_MAX) (hb : b ≤ BALANCE_MAX) (hamt : amt ≤ BALANCE_MAX)
    (htl : tl ≤ BALANCE_MAX) :
    (calculate_liquidity_out a b amt tl = .error MathError.ZeroInReserve ↔
      tl = 0) ∧
    (tl ≠ 0 →
      (amt * a / tl ≤ BALANCE_MAX → amt * b / tl ≤ BALANCE_MAX →
        calculate_liquidity_out a b amt tl = .ok (amt * a / tl, amt * b / tl)) ∧
      ((BALANCE_MAX < amt * a / tl ∨ BALANCE_MAX < amt * b / tl) →
        calculate_liquidity_out a b amt tl = .error MathError.Overflow)) := by
  rcases eq_or_ne tl 0 with htl0 | htl0
  · subst htl0
    refine ⟨by simp [calculate_liquidity_out_zero], fun h => absurd rfl h⟩
  · have hch := calculate_liquidity_out_eq ha hb hamt htl0
    rw [Nat.mul_comm b amt] at hch
    constructor
    · constructor
      · intro h
        rw [hch] at h
        split at h
        · split at h <;> simp_all
        · simp_all
      · intro h
        omega
    · intro _
      constructor
      · intro h1 h2
        rw [hch, if_pos h1, if_pos h2]
      · intro h
        rcases h with h | h
        · have hc : ¬ amt * a / tl ≤ BALANCE_MAX := by omega
          rw [hch, if_neg hc]
        · rcases le_or_lt (amt * a / tl) BALANCE_MAX with h1 | h1
          · have hc : ¬ amt * b / tl ≤ BALANCE_MAX := by omega
            rw [hch, if_pos h1, if_neg hc]
          · have hc : ¬ amt * a / tl ≤ BALANCE_MAX := by omega
            rw [hch, if_neg hc]

/-- Witness for C5 at the concrete pool `(1000, 2000)`, redeeming `500`
of `2500` liquidity tokens. -/
theorem C5_liquidity_out_cases_witness :
    calculate_liquidity_out 1000 2000 500 2500 =
      .ok (500 * 1000 / 2500, 500 * 2000 / 2500) :=
  ((C5_liquidity_out_cases 1000 2000 500 2500 (by decide) (by decide)
      (by decide) (by decide)).2 (by decide)).1 (by decide) (by decide)

/-- Claim C6: `calculate_liquidity_in` fails with `ZeroInReserve` exactly
when `asset_a_reserve = 0`; for a positive `asset_a_reserve` it returns
the truncated quotient `amount * asset_b_reserve / asset_a_reserve` when
it fits in `u128` and `Err(Overflow)` when it exceeds `u128::MAX`. -/
theorem C6_liquidity_in_cases (a b amt : Nat)
    (ha : a ≤ BALANCE_MAX) (hb : b ≤ BALANCE_MAX) (hamt : amt ≤ BALANCE_MAX) :
    (calculate_liquidity_in a b amt = .error MathError.ZeroInReserve ↔
      a = 0) ∧
    (a ≠ 0 →
      (amt * b / a ≤ BALANCE_MAX →
        calculate_liquidity_in a b amt = .ok (amt * b / a)) ∧
      (BALANCE_MAX < amt * b / a →
        calculate_liquidity_in a b amt = .error MathError.Overflow)) := by
  rcases eq_or_ne a 0 with ha0 | ha0
  · subst ha0
    refine ⟨by simp [calculate_liquidity_in_zero], fun h => absurd rfl h⟩
  · have hch := calculate_liquidity_in_eq hb hamt ha0
    constructor
    · constructor
      · intro h
        rw [hch] at h
        split at h <;> simp_all
      · intro h
        omega
    · intro _
      constructor
      · intro h
        rw [hch, if_pos h]
      · intro h
        have hc : ¬ amt * b / a ≤ BALANCE_MAX := by omega
        rw [hch, if_neg hc]

/-- Witness for C6 at the concrete pool `(1000, 2000)`, depositing `500`. -/
theorem C6_liquidity_in_cases_witness :
    calculate_liquidity_in 1000 2000 500 = .ok (500 * 2000 / 1000) :=
  ((C6_liquidity_in_cases 1000 2000 500 (by decide) (by decide)
      (by decide)).2 (by decide)).1 (by decide)

/-- Claim C7: no operation returns an `Ok` by wrapping or silent
truncation: whenever the exact mathematical result of the operation's
formula exceeds `u128::MAX`, the call returns `Err(Overflow)`; in
particular `calculate_spot_price(1, u128::MAX, u128::MAX)` returns
`Err(Overflow)`. -/
theorem C7_no_silent_truncation :
    (∀ i o a, i ≤ BALANCE_MAX → o ≤ BALANCE_MAX → a ≤ BALANCE_MAX →
      i ≠ 0 → BALANCE_MAX < o * a / i →
      calculate_spot_price i o a = .error MathError.Overflow) ∧
    (∀ i o a, i ≤ BALANCE_MAX → o ≤ BALANCE_MAX → a ≤ BALANCE_MAX →
      0 < i + a → BALANCE_MAX < o * a / (i + a) + 1 →
      calculate_out_given_in i o a = .error MathError.Overflow) ∧
    (∀ o i a, o ≤ BALANCE_MAX → i ≤ BALANCE_MAX → a ≤ BALANCE_MAX →
      a < o → BALANCE_MAX < i * a / (o - a) + 1 →
      calculate_in_given_out o i a = .error MathError.Overflow) ∧
    (∀ a b amt, a ≤ BALANCE_MAX → b ≤ BALANCE_MAX → amt ≤ BALANCE_MAX →
      a ≠ 0 → BALANCE_MAX < amt * b / a →
      calculate_liquidity_in a b amt = .error MathError.Overflow) ∧
    (∀ a b amt tl, a ≤ BALANCE_MAX → b ≤ BALANCE_MAX → amt ≤ BALANCE_MAX →
      tl ≤ BALANCE_MAX → tl ≠ 0 →
      (BALANCE_MAX < amt * a / tl ∨ BALANCE_MAX < amt * b / tl) →
      calculate_liquidity_out a b amt tl = .error MathError.Overflow) ∧
    calculate_spot_price 1 BALANCE_MAX BALANCE_MAX =
      .error MathError.Overflow := by
  have hspot : ∀ i o a, i ≤ BALANCE_MAX → o ≤ BALANCE_MAX → a ≤ BALANCE_MAX →
      i ≠ 0 → BALANCE_MAX < o * a / i →
      calculate_spot_price i o a = .error MathError.Overflow := by
    intro i o a hi ho ha hi0 hbig
    have ha0 : a ≠ 0 := by
      rintro rfl
      simp at hbig
    have ho0 : o ≠ 0 := by
      rintro rfl
      simp at hbig
    have hc : ¬ o * a / i ≤ BALANCE_MAX := by omega
    rw [calculate_spot_price_eq ho ha hi0 ha0 ho0, if_neg hc]
  refine ⟨hspot, ?_, ?_, ?_, ?_, ?_⟩
  · intro i o a hi ho ha hpos hbig
    have hc : ¬ o * a / (i + a) + 1 ≤ BALANCE_MAX := by omega
    rw [calculate_out_given_in_eq hi ho ha (by omega), if_neg hc]
  · intro o i a ho hi ha hlt hbig
    have hc : ¬ i * a / (o - a) + 1 ≤ BALANCE_MAX := by omega
    rw [calculate_in_given_out_eq hi ha hlt, if_neg hc]
  · intro a b amt ha hb hamt ha0 hbig
    have hc : ¬ amt * b / a ≤ BALANCE_MAX := by omega
    rw [calculate_liquidity_in_eq hb hamt ha0, if_neg hc]
  · intro a b amt tl ha hb hamt htlb htl0 hbig
    have hch := calculate_liquidity_out_eq ha hb hamt htl0
    rw [Nat.mul_comm b amt] at hch
    rcases hbig with h | h
    · have hc : ¬ amt * a / tl ≤ BALANCE_MAX := by omega
      rw [hch, if_neg hc]
    · rcases le_or_lt (amt * a / tl) BALANCE_MAX with h1 | h1
      · have hc : ¬ amt * b / tl ≤ BALANCE_MAX := by omega
        rw [hch, if_pos h1, if_neg hc]
      · have hc : ¬ amt * a / tl ≤ BALANCE_MAX := by omega
        rw [hch, if_neg hc]
  · exact hspot 1 BALANCE_MAX BALANCE_MAX (by decide) (by decide) (by decide)
      (by decide) (by decide)

/-- Witness for C7: the spot-price boundary case of the claim, and the
swap-out overflow at a zero sell reserve with maximal amounts. -/
theorem C7_no_silent_truncation_witness :
    calculate_spot_price 1 BALANCE_MAX BALANCE_MAX =
      .error MathError.Overflow ∧
    calculate_out_given_in 0 BALANCE_MAX BALANCE_MAX =
      .error MathError.Overflow :=
  ⟨C7_no_silent_truncation.2.2.2.2.2,
   C7_no_silent_truncation.2.1 0 BALANCE_MAX BALANCE_MAX (by decide)
     (by decide) (by decide) (by decide) (by decide)⟩

/-- Claim C8: `calculate_liquidity_out` is linear in `amount` up to
integer-division rounding: when `total_liquidity` is positive, `2 * amount`
fits in `u128` and both calls succeed, each component of the doubled call
equals twice the corresponding component of the original call plus `0` or
`1`. -/
theorem C8_liquidity_out_linear (a b amt tl x y x2 y2 : Nat)
    (ha : a ≤ BALANCE_MAX) (hb : b ≤ BALANCE_MAX) (hamt : amt ≤ BALANCE_MAX)
    (htlb : tl ≤ BALANCE_MAX) (htl : 0 < tl) (hfit : 2 * amt ≤ BALANCE_MAX)
    (h1 : calculate_liquidity_out a b amt tl = .ok (x, y))
    (h2 : calculate_liquidity_out a b (2 * amt) tl = .ok (x2, y2)) :
    (x2 = 2 * x ∨ x2 = 2 * x + 1) ∧ (y2 = 2 * y ∨ y2 = 2 * y + 1) := by
  have htl0 : tl ≠ 0 := by omega
  rw [calculate_liquidity_out_eq ha hb hamt htl0] at h1
  rw [calculate_liquidity_out_eq ha hb hfit htl0] at h2
  split at h1
  · split at h1
    · simp only [Except.ok.injEq, Prod.mk.injEq] at h1
      obtain ⟨rfl, rfl⟩ := h1
      split at h2
      · split at h2
        · simp only [Except.ok.injEq, Prod.mk.injEq] at h2
          obtain ⟨rfl, rfl⟩ := h2
          constructor
          · rw [show 2 * amt * a = 2 * (amt * a) by ring]
            exact double_div (amt * a) tl htl0
          · rw [show b * (2 * amt) = 2 * (b * amt) by ring]
            exact double_div (b * amt) tl htl0
        · cases h2
      · cases h2
    · cases h1
  · cases h1

/-- Witness for C8 at the concrete pool `(1000, 2000)` with `2500`
liquidity tokens, redeeming `500` and then `1000`. -/
theorem C8_liquidity_out_linear_witness :
    (400 = 2 * 200 ∨ 400 = 2 * 200 + 1) ∧
    (800 = 2 * 400 ∨ 800 = 2 * 400 + 1) :=
  C8_liquidity_out_linear 1000 2000 500 2500 200 400 400 800 (by decide)
    (by decide) (by decide) (by decide) (by decide) (by decide) (by rfl)
    (by rfl)

/-- Claim C9: the defensive wide-arithmetic checks are unreachable on
inputs widened from `u128`: `checked_mul` and `checked_add` never return
`none` on values bounded by `u128::MAX`, `checked_div` never returns
`none` on a non-zero divisor, and consequently each operation returns
`Err(Overflow)` only when the final narrowing (or, for the swaps, the
add-one rounding) fails. -/
theorem C9_defensive_checks_unreachable :
    (∀ a b, a ≤ BALANCE_MAX → b ≤ BALANCE_MAX →
      checked_mul a b = some (a * b)) ∧
    (∀ a b, a ≤ BALANCE_MAX → b ≤ BALANCE_MAX →
      checked_add a b = some (a + b)) ∧
    (∀ a b, b ≠ 0 → checked_div a b = some (a / b)) ∧
    (∀ i o a, i ≤ BALANCE_MAX → o ≤ BALANCE_MAX → a ≤ BALANCE_MAX →
      calculate_spot_price i o a = .error MathError.Overflow →
      BALANCE_MAX < o * a / i) ∧
    (∀ i o a, i ≤ BALANCE_MAX → o ≤ BALANCE_MAX → a ≤ BALANCE_MAX →
      calculate_out_given_in i o a = .error MathError.Overflow →
      BALANCE_MAX < o * a / (i + a) + 1) ∧
    (∀ o i a, o ≤ BALANCE_MAX → i ≤ BALANCE_MAX → a ≤ BALANCE_MAX →
      calculate_in_given_out o i a = .error MathError.Overflow →
      BALANCE_MAX < i * a / (o - a) + 1) ∧
    (∀ a b amt, a ≤ BALANCE_MAX → b ≤ BALANCE_MAX → amt ≤ BALANCE_MAX →
      calculate_liquidity_in a b amt = .error MathError.Overflow →
      BALANCE_MAX < amt * b / a) ∧
    (∀ a b amt tl, a ≤ BALANCE_MAX → b ≤ BALANCE_MAX → amt ≤ BALANCE_MAX →
      tl ≤ BALANCE_MAX →
      calculate_liquidity_out a b amt tl = .error MathError.Overflow →
      BALANCE_MAX < amt * a / tl ∨ BALANCE_MAX < amt * b / tl) := by
  refine ⟨fun a b ha hb => checked_mul_eq ha hb,
    fun a b ha hb => checked_add_eq ha hb,
    fun a b hb => checked_div_eq a hb, ?_, ?_, ?_, ?_, ?_⟩
  · intro i o a hi ho ha h
    rcases eq_or_ne i 0 with rfl | hi0
    · rw [calculate_spot_price_zero_in] at h
      simp at h
    · rcases eq_or_ne a 0 with rfl | ha0
      · rw [calculate_spot_price_short_circuit o 0 hi0 (Or.inl rfl)] at h
        simp at h
      · rcases eq_or_ne o 0 with rfl | ho0
        · rw [calculate_spot_price_short_circuit 0 a hi0 (Or.inr rfl)] at h
          simp at h
        · rw [calculate_spot_price_eq ho ha hi0 ha0 ho0] at h
          split at h
          · simp at h
          · omega
  · intro i o a hi ho ha h
    rcases eq_or_ne (i + a) 0 with hz | hz
    · rw [calculate_out_given_in_zero_den o hi ha hz] at h
      simp at h
    · rw [calculate_out_given_in_eq hi ho ha hz] at h
      split at h
      · simp at h
      · omega
  · intro o i a ho hi ha h
    rcases Nat.lt_trichotomy a o with hlt | heq | hgt
    · rw [calculate_in_given_out_eq hi ha hlt] at h
      split at h
      · simp at h
      · omega
    · rw [calculate_in_given_out_drain hi ha heq] at h
      simp at h
    · rw [calculate_in_given_out_insufficient i hgt] at h
      simp at h
  · intro a b amt ha hb hamt h
    rcases eq_or_ne a 0 with rfl | ha0
    · rw [calculate_liquidity_in_zero] at h
      simp at h
    · rw [calculate_liquidity_in_eq hb hamt ha0] at h
      split at h
      · simp at h
      · omega
  · intro a b amt tl ha hb hamt htlb h
    rcases eq_or_ne tl 0 with rfl | htl0
    · rw [calculate_liquidity_out_zero] at h
      simp at h
    · have hch := calculate_liquidity_out_eq ha hb hamt htl0
      rw [Nat.mul_comm b amt] at hch
      rw [hch] at h
      split at h
      · split at h
        · simp at h
        · right
          omega
      · left
        omega

/-- Witness for C9 on small concrete values of the checked operations. -/
theorem C9_defensive_checks_unreachable_witness :
    checked_mul 3 4 = some (3 * 4) ∧ checked_add 3 4 = some (3 + 4) ∧
    checked_div 9 2 = some (9 / 2) :=
  ⟨C9_defensive_checks_unreachable.1 3 4 (by decide) (by decide),
   C9_defensive_checks_unreachable.2.1 3 4 (by decide) (by decide),
   C9_defensive_checks_unreachable.2.2.1 9 2 (by decide)⟩

/-- Claim C10: every `Ok` result of the two swap functions is at least `1`
because the add-one rounding is unconditional; in particular
`calculate_out_given_in(in_reserve, 0, amount_in)` returns `Ok(1)` when
the denominator is positive, and `calculate_in_given_out(out_reserve,
in_reserve, 0)` returns `Ok(1)` when `out_reserve` is positive. -/
theorem C10_swap_outputs_at_least_one :
    (∀ i o a v, calculate_out_given_in i o a = .ok v → 1 ≤ v) ∧
    (∀ o i a v, calculate_in_given_out o i a = .ok v → 1 ≤ v) ∧
    (∀ i a, i ≤ BALANCE_MAX → a ≤ BALANCE_MAX → 0 < i + a →
      calculate_out_given_in i 0 a = .ok 1) ∧
    (∀ o i, o ≤ BALANCE_MAX → i ≤ BALANCE_MAX → 0 < o →
      calculate_in_given_out o i 0 = .ok 1) := by
  refine ⟨fun i o a v h => calculate_out_given_in_ok_pos h,
    fun o i a v h => calculate_in_given_out_ok_pos h, ?_, ?_⟩
  · intro i a hi ha hpos
    have hch := calculate_out_given_in_eq hi (Nat.zero_le _) ha (by omega)
    rw [hch]
    have hz : (0 : Nat) * a / (i + a) = 0 := by simp
    rw [hz]
    have hc : 0 + 1 ≤ BALANCE_MAX := by decide
    rw [if_pos hc]
  · intro o i ho hi hpos
    have hch := calculate_in_given_out_eq hi (Nat.zero_le _) hpos
    rw [hch]
    have hz : i * 0 / (o - 0) = 0 := by simp
    rw [hz]
    have hc : 0 + 1 ≤ BALANCE_MAX := by decide
    rw [if_pos hc]

/-- Witness for C10: an empty out-reserve swap and a zero-amount buy both
return exactly one unit, and a generic successful swap returns at least
one unit. -/
theorem C10_swap_outputs_at_least_one_witness :
    1 ≤ 667 ∧ calculate_out_given_in 1 0 0 = .ok 1 ∧
      calculate_in_given_out 5 7 0 = .ok 1 :=
  ⟨C10_swap_outputs_at_least_one.1 1000 2000 500 667 (by rfl),
   C10_swap_outputs_at_least_one.2.2.1 1 0 (by decide) (by decide) (by decide),
   C10_swap_outputs_at_least_one.2.2.2 5 7 (by decide) (by decide) (by decide)⟩

end Amm
